import Mathlib

/-!
# Verification of the GLOVE shader-program / resource-manager core

Shallow embedding of `src/GLES/source/resources/shaderProgram.cpp` (which also
contains `resourceManager.cpp`).  Each definition names the source function it
embeds; external collaborators (the GLSL-to-SPIR-V compiler, the Vulkan API,
the Texture class) are represented by oracle inputs or, where the spec pins
their behaviour down, by definitions marked "Modelled from the spec".
-/

namespace Glove

/-! ## Shader stages and program linking (ShaderProgram::LinkProgram) -/

/-- The two shader stage kinds (SHADER_TYPE_VERTEX / SHADER_TYPE_FRAGMENT). -/
inductive ShaderKind where
  | vertex
  | fragment
deriving DecidableEq, Repr

/-- A Shader object as seen by ValidateProgram: its stage kind and its
IsCompiled() flag. -/
structure Shader where
  kind : ShaderKind
  compiled : Bool
deriving DecidableEq, Repr

/-- The configured platform limits (GLOVE_MAX_VERTEX_ATTRIBS,
GLOVE_MAX_VERTEX_UNIFORM_VECTORS, GLOVE_MAX_FRAGMENT_UNIFORM_VECTORS). -/
structure LinkLimits where
  maxVertexAttribs : Nat
  maxVertexUniformVectors : Nat
  maxFragmentUniformVectors : Nat
deriving DecidableEq, Repr

/-- Results of the external ShaderCompiler calls made during LinkProgram,
together with the post-link reflection counts it reports.  The compiler is an
external collaborator, so its answers are oracle inputs. -/
structure CompilerOracle where
  validateOk : Bool
  preprocessVsOk : Bool
  preprocessFsOk : Bool
  linkOk : Bool
  nActiveUniforms : Nat
  nActiveAttributes : Nat
deriving DecidableEq, Repr

/-- Outcome of ShaderProgram::LinkProgram: the mLinked flag it returns, and
whether any external compiler entry point was invoked on the way. -/
structure LinkOutcome where
  success : Bool
  compilerInvoked : Bool
deriving DecidableEq, Repr

/-- ShaderProgram::ValidateProgram (shaderProgram.cpp:343-362): fails when a
stage is missing or uncompiled, otherwise returns the external compiler's
ValidateProgram answer. -/
def validateProgram (vs fs : Option Shader) (o : CompilerOracle) : Bool :=
  match vs, fs with
  | some v, some f => if !v.compiled || !f.compiled then false else o.validateOk
  | _, _ => false

/-- ShaderProgram::LinkProgram (shaderProgram.cpp:364-431): ValidateProgram,
then PreprocessShader on both stages, then the compiler link, then the
platform-limit check on the reflection counts.  Dump/save debug switches and
the vertex-input reset do not affect the outcome and are omitted. -/
def linkProgram (vs fs : Option Shader) (lim : LinkLimits) (o : CompilerOracle) :
    LinkOutcome :=
  if !(validateProgram vs fs o) then
    { success := false
      compilerInvoked :=
        match vs, fs with
        | some v, some f => v.compiled && f.compiled
        | _, _ => false }
  else if !(o.preprocessVsOk && o.preprocessFsOk) then
    { success := false, compilerInvoked := true }
  else if !o.linkOk then
    { success := false, compilerInvoked := true }
  else if o.nActiveUniforms > lim.maxVertexUniformVectors
       || o.nActiveUniforms > lim.maxFragmentUniformVectors
       || o.nActiveAttributes > lim.maxVertexAttribs then
    { success := false, compilerInvoked := true }
  else
    { success := true, compilerInvoked := true }

/-- The conditions claimed (in C1) to be equivalent to link success: both
stages attached and compiled, and reflection counts within the limits. -/
def linkClaimConditions (vs fs : Option Shader) (lim : LinkLimits)
    (o : CompilerOracle) : Bool :=
  (match vs with | some v => v.compiled | none => false)
  && (match fs with | some f => f.compiled | none => false)
  && decide (o.nActiveUniforms ≤ lim.maxVertexUniformVectors)
  && decide (o.nActiveUniforms ≤ lim.maxFragmentUniformVectors)
  && decide (o.nActiveAttributes ≤ lim.maxVertexAttribs)

/-- A compiled vertex shader. -/
def vsOK : Shader := { kind := ShaderKind.vertex, compiled := true }

/-- A compiled fragment shader. -/
def fsOK : Shader := { kind := ShaderKind.fragment, compiled := true }

/-- Typical limits. -/
def limOK : LinkLimits :=
  { maxVertexAttribs := 8, maxVertexUniformVectors := 128
    maxFragmentUniformVectors := 128 }

/-- An oracle on which the external compiler's cross-stage validation fails
even though both stages are compiled and the counts are tiny. -/
def oracleValidateFails : CompilerOracle :=
  { validateOk := false, preprocessVsOk := true, preprocessFsOk := true
    linkOk := true, nActiveUniforms := 0, nActiveAttributes := 0 }

/-- An all-good oracle. -/
def oracleAllOk : CompilerOracle :=
  { validateOk := true, preprocessVsOk := true, preprocessFsOk := true
    linkOk := true, nActiveUniforms := 4, nActiveAttributes := 2 }

end Glove

namespace Glove

/-! ## C1 theorems -/

/-- C1 counterexample: with a compiled vertex and fragment stage attached and
reflection counts far below the limits, LinkProgram still fails when the
external compiler's cross-stage ValidateProgram call rejects the program, so
link success is not equivalent to the three claimed conditions. -/
theorem linkProgram_claimC1_false_on_compiler_reject :
    ¬ (((linkProgram (some vsOK) (some fsOK) limOK oracleValidateFails).success = true)
        ↔ linkClaimConditions (some vsOK) (some fsOK) limOK oracleValidateFails = true) := by
  decide

/-- C1 (amended): LinkProgram succeeds iff a vertex and a fragment stage are
attached, both compiled, every external compiler call (validate, per-stage
preprocess, link) succeeds, and the post-link active-uniform/attribute counts
are within the configured limits; and when a stage is missing or uncompiled it
fails immediately, without invoking the compiler. -/
theorem linkProgram_success_characterization
    (vs fs : Option Shader) (lim : LinkLimits) (o : CompilerOracle) :
    ((linkProgram vs fs lim o).success = true ↔
      ((∃ v, vs = some v ∧ v.compiled = true) ∧ (∃ f, fs = some f ∧ f.compiled = true)
        ∧ o.validateOk = true ∧ o.preprocessVsOk = true ∧ o.preprocessFsOk = true
        ∧ o.linkOk = true
        ∧ o.nActiveUniforms ≤ lim.maxVertexUniformVectors
        ∧ o.nActiveUniforms ≤ lim.maxFragmentUniformVectors
        ∧ o.nActiveAttributes ≤ lim.maxVertexAttribs))
    ∧ ((vs = none ∨ fs = none ∨ (∃ v, vs = some v ∧ v.compiled = false)
          ∨ (∃ f, fs = some f ∧ f.compiled = false)) →
        (linkProgram vs fs lim o).success = false
          ∧ (linkProgram vs fs lim o).compilerInvoked = false) := by
  constructor
  · match vs, fs with
    | none, _ =>
      simp [linkProgram, validateProgram]
    | some v, none =>
      simp [linkProgram, validateProgram]
    | some v, some f =>
      rcases hv : v.compiled <;> rcases hf : f.compiled <;>
        rcases hval : o.validateOk <;>
        rcases hpv : o.preprocessVsOk <;> rcases hpf : o.preprocessFsOk <;>
        rcases hlk : o.linkOk <;>
        simp [linkProgram, validateProgram, hv, hf, hval, hpv, hpf, hlk] <;>
        (try split) <;> simp_all <;> omega
  · intro h
    match vs, fs with
    | none, _ =>
      simp [linkProgram, validateProgram]
    | some v, none =>
      simp [linkProgram, validateProgram]
    | some v, some f =>
      have hcomp : v.compiled = false ∨ f.compiled = false := by
        rcases h with h | h | ⟨v', hv', hc⟩ | ⟨f', hf', hc⟩
        · exact absurd h (by simp)
        · exact absurd h (by simp)
        · exact Or.inl (by injection hv' with e; rw [e]; exact hc)
        · exact Or.inr (by injection hf' with e; rw [e]; exact hc)
      rcases hcomp with hc | hc <;>
        rcases hv : v.compiled <;> rcases hf : f.compiled <;>
          simp_all [linkProgram, validateProgram]

/-- Witness for the C1 amended theorem: instantiated on a missing vertex
stage, the link fails without invoking the compiler. -/
theorem linkProgram_success_characterization_witness :
    (linkProgram none (some fsOK) limOK oracleAllOk).success = false
      ∧ (linkProgram none (some fsOK) limOK oracleAllOk).compilerInvoked = false :=
  (linkProgram_success_characterization none (some fsOK) limOK oracleAllOk).2
    (Or.inl rfl)

/-! ## Native object teardown (ShaderProgram::ReleaseVkObjects) -/

/-- The four native destroy/free calls ReleaseVkObjects can make. -/
inductive VkDestroyCall where
  | destroyPipelineLayout
  | destroyDescriptorSetLayout
  | freeDescriptorSet
  | destroyDescriptorPool
deriving DecidableEq, Repr

/-- The program's four native handles (mVkPipelineLayout, mVkDescSetLayout,
mVkDescSet, mVkDescPool); none represents VK_NULL_HANDLE. -/
structure ProgramVkObjects where
  vkPipelineLayout : Option Nat
  vkDescSetLayout : Option Nat
  vkDescSet : Option Nat
  vkDescPool : Option Nat
deriving DecidableEq, Repr

/-- ShaderProgram::ReleaseVkObjects (shaderProgram.cpp:801-834): each handle is
destroyed if non-null and then set to VK_NULL_HANDLE, in the textual order of
the source; the returned list is the sequence of native calls issued.  (The
trailing loop clearing the SPIR-V arrays and the pipeline-cache release do not
touch these four handles and are omitted here.) -/
def releaseVkObjects (s0 : ProgramVkObjects) : ProgramVkObjects × List VkDestroyCall :=
  let r1 := if s0.vkPipelineLayout.isSome
    then ({ s0 with vkPipelineLayout := none }, [VkDestroyCall.destroyPipelineLayout])
    else (s0, [])
  let r2 := if r1.1.vkDescSetLayout.isSome
    then ({ r1.1 with vkDescSetLayout := none },
          r1.2 ++ [VkDestroyCall.destroyDescriptorSetLayout])
    else r1
  let r3 := if r2.1.vkDescSet.isSome
    then ({ r2.1 with vkDescSet := none }, r2.2 ++ [VkDestroyCall.freeDescriptorSet])
    else r2
  if r3.1.vkDescPool.isSome
    then ({ r3.1 with vkDescPool := none }, r3.2 ++ [VkDestroyCall.destroyDescriptorPool])
    else r3

/-- A program state in which all four native handles are live. -/
def vkObjsAllLive : ProgramVkObjects :=
  { vkPipelineLayout := some 1, vkDescSetLayout := some 2
    vkDescSet := some 3, vkDescPool := some 4 }

/-- C8 counterexample: starting from a state where all four handles are live,
ReleaseVkObjects does not destroy them in the claimed order (descriptor set,
descriptor pool, descriptor-set layout, pipeline layout); the actual order is
pipeline layout, descriptor-set layout, descriptor set, descriptor pool. -/
theorem releaseVkObjects_claimC8_order_false :
    (releaseVkObjects vkObjsAllLive).2 ≠
        [VkDestroyCall.freeDescriptorSet, VkDestroyCall.destroyDescriptorPool,
         VkDestroyCall.destroyDescriptorSetLayout, VkDestroyCall.destroyPipelineLayout]
      ∧ (releaseVkObjects vkObjsAllLive).2 =
        [VkDestroyCall.destroyPipelineLayout, VkDestroyCall.destroyDescriptorSetLayout,
         VkDestroyCall.freeDescriptorSet, VkDestroyCall.destroyDescriptorPool] := by
  decide

/-- C8 (amended): every call to ReleaseVkObjects tears the native objects down
unconditionally, leaving all four handles null; when all four are live they
are destroyed in the order pipeline layout, then descriptor-set layout, then
descriptor set, then descriptor pool (each destroyed only if non-null). -/
theorem releaseVkObjects_order_and_nulls (s : ProgramVkObjects) :
    ((releaseVkObjects s).1.vkPipelineLayout = none
      ∧ (releaseVkObjects s).1.vkDescSetLayout = none
      ∧ (releaseVkObjects s).1.vkDescSet = none
      ∧ (releaseVkObjects s).1.vkDescPool = none)
    ∧ (s.vkPipelineLayout.isSome = true → s.vkDescSetLayout.isSome = true →
        s.vkDescSet.isSome = true → s.vkDescPool.isSome = true →
        (releaseVkObjects s).2 =
          [VkDestroyCall.destroyPipelineLayout, VkDestroyCall.destroyDescriptorSetLayout,
           VkDestroyCall.freeDescriptorSet, VkDestroyCall.destroyDescriptorPool]) := by
  obtain ⟨pl, dsl, ds, dp⟩ := s
  rcases pl <;> rcases dsl <;> rcases ds <;> rcases dp <;>
    simp [releaseVkObjects]

/-- Witness for the C8 amended theorem at the all-live state. -/
theorem releaseVkObjects_order_and_nulls_witness :
    (releaseVkObjects vkObjsAllLive).2 =
      [VkDestroyCall.destroyPipelineLayout, VkDestroyCall.destroyDescriptorSetLayout,
       VkDestroyCall.freeDescriptorSet, VkDestroyCall.destroyDescriptorPool] :=
  (releaseVkObjects_order_and_nulls vkObjsAllLive).2 rfl rfl rfl rfl

/-! ## Attaching and detaching shaders (ShaderProgram::AttachShader / DetachShader)

Reference counts live in a store mapping shader ids to counts; Bind/Unbind of
the refObject base class increment/decrement the count (Modelled from the
spec: Shader objects are reference-counted; Bind/Unbind themselves are not in
the shown source). -/

/-- A shader as referenced by a program slot: its object identity and stage. -/
structure SlotShader where
  sid : Nat
  kind : ShaderKind
deriving DecidableEq, Repr

/-- The program's two stage slots (mShaders[0] vertex, mShaders[1] fragment). -/
structure ProgramSlots where
  vertexSlot : Option SlotShader
  fragmentSlot : Option SlotShader
deriving DecidableEq, Repr

/-- refObject::Bind, modelled from the spec: increments the shader's
reference count. -/
def bindShader (rc : Nat → Nat) (sid : Nat) : Nat → Nat :=
  fun k => if k = sid then rc k + 1 else rc k

/-- refObject::Unbind, modelled from the spec: decrements the shader's
reference count. -/
def unbindShader (rc : Nat → Nat) (sid : Nat) : Nat → Nat :=
  fun k => if k = sid then rc k - 1 else rc k

/-- ShaderProgram::AttachShader (shaderProgram.cpp:180-187): binds the shader
and overwrites the slot selected by its stage kind; the previous occupant is
not unbound. -/
def attachShader (p : ProgramSlots) (rc : Nat → Nat) (s : SlotShader) :
    ProgramSlots × (Nat → Nat) :=
  let rc' := bindShader rc s.sid
  match s.kind with
  | ShaderKind.vertex => ({ p with vertexSlot := some s }, rc')
  | ShaderKind.fragment => ({ p with fragmentSlot := some s }, rc')

/-- ShaderProgram::IsShaderAttached (shaderProgram.cpp:166-178). -/
def isShaderAttached (p : ProgramSlots) (s : SlotShader) : Bool :=
  (s.kind == ShaderKind.vertex && p.vertexSlot == some s)
    || (s.kind == ShaderKind.fragment && p.fragmentSlot == some s)

/-- ShaderProgram::DetachShader (shaderProgram.cpp:189-205): only when the
shader is currently attached does it clear the slot and unbind the shader. -/
def detachShader (p : ProgramSlots) (rc : Nat → Nat) (s : SlotShader) :
    ProgramSlots × (Nat → Nat) :=
  if !(isShaderAttached p s) then (p, rc)
  else
    match s.kind with
    | ShaderKind.vertex => ({ p with vertexSlot := none }, unbindShader rc s.sid)
    | ShaderKind.fragment => ({ p with fragmentSlot := none }, unbindShader rc s.sid)

/-- The slot a given stage kind occupies. -/
def slotOf (p : ProgramSlots) (k : ShaderKind) : Option SlotShader :=
  match k with
  | ShaderKind.vertex => p.vertexSlot
  | ShaderKind.fragment => p.fragmentSlot

/-- C10: attaching S over an occupied same-stage slot holding T binds S
(incrementing S's count) and overwrites the slot, but never unbinds T: T's
count is unchanged (it stays bound) although it is no longer attached, and a
subsequent DetachShader on T is a no-op; AttachShader decrements no count. -/
theorem attachShader_overwrites_without_unbind
    (p : ProgramSlots) (rc : Nat → Nat) (t s : SlotShader)
    (hslot : slotOf p s.kind = some t) (hkind : t.kind = s.kind)
    (hne : s.sid ≠ t.sid) :
    slotOf (attachShader p rc s).1 s.kind = some s
      ∧ (attachShader p rc s).2 s.sid = rc s.sid + 1
      ∧ (attachShader p rc s).2 t.sid = rc t.sid
      ∧ isShaderAttached (attachShader p rc s).1 t = false
      ∧ detachShader (attachShader p rc s).1 (attachShader p rc s).2 t
          = ((attachShader p rc s).1, (attachShader p rc s).2)
      ∧ (∀ k, rc k ≤ (attachShader p rc s).2 k) := by
  have hst : s ≠ t := fun h => hne (by rw [h])
  have htk : t.kind = s.kind := hkind
  have hts : t.sid ≠ s.sid := Ne.symm hne
  have hts' : t ≠ s := Ne.symm hst
  have hAtt : isShaderAttached (attachShader p rc s).1 t = false := by
    rcases hk : s.kind <;>
      simp [attachShader, isShaderAttached, hk, htk.trans hk, hts', hst]
  refine ⟨?_, ?_, ?_, hAtt, ?_, ?_⟩
  · rcases hk : s.kind <;> simp [attachShader, slotOf, hk]
  · rcases hk : s.kind <;> simp [attachShader, bindShader, hk]
  · rcases hk : s.kind <;> simp [attachShader, bindShader, hk, hts]
  · simp [detachShader, hAtt]
  · intro k
    rcases hk : s.kind <;> simp only [attachShader, hk] <;>
      by_cases hks : k = s.sid <;> simp [bindShader, hks]

/-- Witness for C10: a concrete program with vertex shader id 1 attached;
attaching vertex shader id 2 leaves id 1's count at 1, sets id 2's to 1,
and id 1 is no longer attached. -/
theorem attachShader_overwrites_without_unbind_witness :
    (slotOf (attachShader
        { vertexSlot := some { sid := 1, kind := ShaderKind.vertex }, fragmentSlot := none }
        (fun k => if k = 1 then 1 else 0)
        { sid := 2, kind := ShaderKind.vertex }).1 ShaderKind.vertex
      = some { sid := 2, kind := ShaderKind.vertex })
    ∧ (attachShader
        { vertexSlot := some { sid := 1, kind := ShaderKind.vertex }, fragmentSlot := none }
        (fun k => if k = 1 then 1 else 0)
        { sid := 2, kind := ShaderKind.vertex }).2 2 = 1
    ∧ (attachShader
        { vertexSlot := some { sid := 1, kind := ShaderKind.vertex }, fragmentSlot := none }
        (fun k => if k = 1 then 1 else 0)
        { sid := 2, kind := ShaderKind.vertex }).2 1 = 1 := by
  have h := attachShader_overwrites_without_unbind
    { vertexSlot := some { sid := 1, kind := ShaderKind.vertex }, fragmentSlot := none }
    (fun k => if k = 1 then 1 else 0)
    { sid := 1, kind := ShaderKind.vertex }
    { sid := 2, kind := ShaderKind.vertex }
    (by rfl) (by rfl) (by decide)
  exact ⟨h.1, h.2.1, h.2.2.1⟩

/-! ## Deferred deletion (ResourceManager::CleanPurgeList) -/

/-- One purge-list sweep (the per-type loops of
ResourceManager::CleanPurgeList, resourceManager.cpp section, lines
1446-1503): every object whose deletion predicate holds is freed (second
component, in sweep order) and removed; every other object stays on the list.
The side bookkeeping of the shader/program loops (DetachShaders, erasing the
namespace id) does not affect list membership and is not tracked here. -/
def cleanPurge {α : Type} (free : α → Bool) : List α → List α × List α
  | [] => ([], [])
  | x :: xs =>
    let r := cleanPurge free xs
    if free x then (r.1, x :: r.2) else (x :: r.1, r.2)

/-- A reference-counted GL object (buffer / texture / renderbuffer) on a
purge list. -/
structure RefCountedObj where
  oid : Nat
  refCount : Nat
deriving DecidableEq, Repr

/-- The deletion predicate of the buffer/texture/renderbuffer sweeps:
GetRefCount() == 0. -/
def refCountFree (o : RefCountedObj) : Bool := o.refCount == 0

/-- A Shader (or ShaderProgram) on a purge list. -/
structure ShaderResource where
  sid : Nat
  refCount : Nat
deriving DecidableEq, Repr

/-- Shader::FreeForDeletion.  Modelled from the spec: a purged shader/program
is freed once its reference count reaches zero (purge-list membership already
records that deletion was requested); the method body itself is not in the
shown source. -/
def ShaderResource.freeForDeletion (s : ShaderResource) : Bool := s.refCount == 0

/-- The buffers sweep of CleanPurgeList. -/
def cleanPurgeListBuffers : List RefCountedObj → List RefCountedObj × List RefCountedObj :=
  cleanPurge refCountFree

/-- The shaders sweep of CleanPurgeList. -/
def cleanPurgeListShaders : List ShaderResource → List ShaderResource × List ShaderResource :=
  cleanPurge ShaderResource.freeForDeletion

theorem cleanPurge_not_freed {α : Type} (free : α → Bool) (x : α)
    (h : free x = false) :
    ∀ l : List α, x ∉ (cleanPurge free l).2 := by
  intro l
  induction l with
  | nil => simp [cleanPurge]
  | cons y ys ih =>
    by_cases hy : free y = true
    · simp only [cleanPurge, hy, if_pos]
      intro hmem
      rcases List.mem_cons.mp hmem with he | hmem'
      · rw [he] at h; rw [h] at hy; cases hy
      · exact ih hmem'
    · simp only [cleanPurge, hy, if_neg, Bool.not_eq_true] at *
      simpa [cleanPurge, hy] using ih

theorem cleanPurge_not_kept {α : Type} (free : α → Bool) (x : α)
    (h : free x = true) :
    ∀ l : List α, x ∉ (cleanPurge free l).1 := by
  intro l
  induction l with
  | nil => simp [cleanPurge]
  | cons y ys ih =>
    by_cases hy : free y = true
    · simpa [cleanPurge, hy] using ih
    · simp only [cleanPurge, hy]
      intro hmem
      rcases List.mem_cons.mp hmem with he | hmem'
      · rw [he] at h; exact hy h
      · exact ih hmem'

theorem cleanPurge_kept {α : Type} (free : α → Bool) (l : List α) (x : α)
    (hx : x ∈ l) (h : free x = false) :
    x ∈ (cleanPurge free l).1 ∧ x ∉ (cleanPurge free l).2 := by
  refine ⟨?_, cleanPurge_not_freed free x h l⟩
  induction l with
  | nil => cases hx
  | cons y ys ih =>
    rcases List.mem_cons.mp hx with he | hmem
    · subst he
      simp [cleanPurge, h]
    · by_cases hy : free y = true <;> simp [cleanPurge, hy, ih hmem]

theorem cleanPurge_count_freed {α : Type} [DecidableEq α] (free : α → Bool) (x : α)
    (h : free x = true) :
    ∀ l : List α, List.count x (cleanPurge free l).2 = List.count x l := by
  intro l
  induction l with
  | nil => simp [cleanPurge]
  | cons y ys ih =>
    by_cases hy : free y = true
    · simp [cleanPurge, hy, List.count_cons, ih]
    · have hxy : ¬ (y = x) := by
        intro he; rw [he] at hy; exact hy h
      simp [cleanPurge, hy, List.count_cons, ih, hxy]

theorem cleanPurge_freed_subset {α : Type} (free : α → Bool) (l : List α) :
    (cleanPurge free l).2 ⊆ l := by
  induction l with
  | nil => simp [cleanPurge]
  | cons y ys ih =>
    intro a ha
    by_cases hy : free y = true
    · simp only [cleanPurge, hy, if_true] at ha
      rcases List.mem_cons.mp ha with he | ha'
      · rw [he]; exact List.mem_cons_self y ys
      · exact List.mem_cons_of_mem y (ih ha')
    · simp only [cleanPurge, hy] at ha
      exact List.mem_cons_of_mem y (ih ha)

/-- C4: for an object on a purge list, a CleanPurgeList sweep keeps it
allocated and listed while its deletion predicate is false (reference count
still positive for buffers, FreeForDeletion false for shaders); once the
predicate holds, the sweep frees it and removes it from the list exactly once
(a second sweep cannot free it again).  Stated for the shader sweep and the
buffer sweep; the texture/renderbuffer/program sweeps are the same code shape
on their own lists. -/
theorem cleanPurgeList_defers_then_frees_once
    (ls : List ShaderResource) (s : ShaderResource)
    (lb : List RefCountedObj) (b : RefCountedObj) :
    (s ∈ ls → s.freeForDeletion = false →
        s ∈ (cleanPurgeListShaders ls).1 ∧ s ∉ (cleanPurgeListShaders ls).2)
    ∧ (List.count s ls = 1 → s.freeForDeletion = true →
        List.count s (cleanPurgeListShaders ls).2 = 1
          ∧ s ∉ (cleanPurgeListShaders ls).1
          ∧ s ∉ (cleanPurgeListShaders (cleanPurgeListShaders ls).1).2)
    ∧ (b ∈ lb → 0 < b.refCount →
        b ∈ (cleanPurgeListBuffers lb).1 ∧ b ∉ (cleanPurgeListBuffers lb).2)
    ∧ (List.count b lb = 1 → b.refCount = 0 →
        List.count b (cleanPurgeListBuffers lb).2 = 1
          ∧ b ∉ (cleanPurgeListBuffers lb).1
          ∧ b ∉ (cleanPurgeListBuffers (cleanPurgeListBuffers lb).1).2) := by
  unfold cleanPurgeListShaders cleanPurgeListBuffers
  refine ⟨?_, ?_, ?_, ?_⟩
  · intro hmem hfree
    exact cleanPurge_kept _ ls s hmem hfree
  · intro hcount hfree
    have hnk := cleanPurge_not_kept ShaderResource.freeForDeletion s hfree ls
    refine ⟨by rw [cleanPurge_count_freed _ s hfree ls]; exact hcount, hnk, ?_⟩
    intro hmem
    exact hnk (cleanPurge_freed_subset _ _ hmem)
  · intro hmem hrc
    have hfree : refCountFree b = false := by
      simp [refCountFree]; omega
    exact cleanPurge_kept _ lb b hmem hfree
  · intro hcount hrc
    have hfree : refCountFree b = true := by simp [refCountFree, hrc]
    have hnk := cleanPurge_not_kept refCountFree b hfree lb
    refine ⟨by rw [cleanPurge_count_freed _ b hfree lb]; exact hcount, hnk, ?_⟩
    intro hmem
    exact hnk (cleanPurge_freed_subset _ _ hmem)

/-- Witness for C4 at a concrete two-element purge list: the shader with
positive count survives the sweep, the zero-count one is freed once. -/
theorem cleanPurgeList_defers_then_frees_once_witness :
    ({ sid := 1, refCount := 2 } ∈
        (cleanPurgeListShaders
          [{ sid := 1, refCount := 2 }, { sid := 2, refCount := 0 }]).1
      ∧ ({ sid := 1, refCount := 2 } : ShaderResource) ∉
        (cleanPurgeListShaders
          [{ sid := 1, refCount := 2 }, { sid := 2, refCount := 0 }]).2)
    ∧ List.count ({ sid := 2, refCount := 0 } : ShaderResource)
        (cleanPurgeListShaders
          [{ sid := 1, refCount := 2 }, { sid := 2, refCount := 0 }]).2 = 1 := by
  have h := cleanPurgeList_defers_then_frees_once
    [{ sid := 1, refCount := 2 }, { sid := 2, refCount := 0 }]
    { sid := 1, refCount := 2 }
    [] { oid := 0, refCount := 0 }
  have h2 := cleanPurgeList_defers_then_frees_once
    [{ sid := 1, refCount := 2 }, { sid := 2, refCount := 0 }]
    { sid := 2, refCount := 0 }
    [] { oid := 0, refCount := 0 }
  exact ⟨h.1 (by decide) (by decide), (h2.2.1 (by decide) (by decide)).1⟩

/-! ## Descriptor-set synchronization (ShaderProgram::UpdateDescriptorSet) -/

/-- What UpdateDescriptorSet needs to know about one live uniform: whether its
type is GL_SAMPLER_2D/GL_SAMPLER_CUBE, its array size, and whether the texture
currently bound to its unit is attached to a framebuffer as color attachment
(the answer of ResourceManager::IsTextureAttachedToFBO for it). -/
structure UniformInfo where
  isSamplerType : Bool
  arraySize : Nat
  texAttachedToFBO : Bool
deriving DecidableEq, Repr

/-- The program state UpdateDescriptorSet reads and writes: the number of live
uniform blocks and the two dirty flags (mUpdateDescriptorData,
mUpdateDescriptorSets). -/
structure DescriptorState where
  nLiveUniformBlocks : Nat
  updateDescriptorData : Bool
  updateDescriptorSets : Bool
deriving DecidableEq, Repr

/-- Result of one UpdateDescriptorSet call: how many native
vkUpdateDescriptorSets calls were made, the descriptorWriteCount passed to the
single call (if any), and the final program state. -/
structure DescriptorUpdateResult where
  nativeWriteCalls : Nat
  writesInCall : Option Nat
  finalState : DescriptorState
deriving DecidableEq, Repr

/-- The FBO-attachment rescan of UpdateDescriptorSet (shaderProgram.cpp:
1064-1079): some sampler-typed uniform with a non-empty array has its bound
texture attached to a framebuffer. -/
def anySamplerAttachedToFBO (uniforms : List UniformInfo) : Bool :=
  uniforms.any fun u => u.isSamplerType && u.arraySize != 0 && u.texAttachedToFBO

/-- ShaderProgram::UpdateDescriptorSet (shaderProgram.cpp:1039-1093): a no-op
when there are no live uniform blocks; otherwise flushes dirty uniform data
(setting mUpdateDescriptorSets if that allocated a new buffer object — the
oracle input allocatedNewBufferObject), rescans samplers for FBO-attached
textures, and only when mUpdateDescriptorSets ends up set runs
UpdateSamplerDescriptors, which issues exactly one vkUpdateDescriptorSets
call whose write array has one entry per live uniform block
(shaderProgram.cpp:1203-1222). -/
def updateDescriptorSet (s : DescriptorState) (uniforms : List UniformInfo)
    (allocatedNewBufferObject : Bool) : DescriptorUpdateResult :=
  if s.nLiveUniformBlocks == 0 then
    { nativeWriteCalls := 0, writesInCall := none, finalState := s }
  else
    let s1 := if s.updateDescriptorData then
        { s with updateDescriptorSets := s.updateDescriptorSets || allocatedNewBufferObject
                 updateDescriptorData := false }
      else s
    let s2 := { s1 with
      updateDescriptorSets := s1.updateDescriptorSets || anySamplerAttachedToFBO uniforms }
    if !s2.updateDescriptorSets then
      { nativeWriteCalls := 0, writesInCall := none, finalState := s2 }
    else
      { nativeWriteCalls := 1, writesInCall := some s.nLiveUniformBlocks
        finalState := { s2 with updateDescriptorSets := false } }

/-- C3: with zero live uniform blocks UpdateDescriptorSet is a no-op (no
native call, state untouched); otherwise it performs at most one native
batched descriptor-write call — exactly one precisely when the
sampler-bindings flag was set, or flushing dirty uniform data allocated a new
buffer object, or some sampler's texture is FBO-attached — and that single
call covers all uniform blocks (one write per live block), never one call per
uniform. -/
theorem updateDescriptorSet_batches_once
    (s : DescriptorState) (uniforms : List UniformInfo) (allocNew : Bool) :
    (s.nLiveUniformBlocks = 0 →
        updateDescriptorSet s uniforms allocNew =
          { nativeWriteCalls := 0, writesInCall := none, finalState := s })
    ∧ (s.nLiveUniformBlocks ≠ 0 →
        (updateDescriptorSet s uniforms allocNew).nativeWriteCalls ≤ 1
        ∧ ((updateDescriptorSet s uniforms allocNew).nativeWriteCalls = 1 ↔
            (s.updateDescriptorSets = true
              ∨ (s.updateDescriptorData = true ∧ allocNew = true)
              ∨ anySamplerAttachedToFBO uniforms = true))
        ∧ ((updateDescriptorSet s uniforms allocNew).nativeWriteCalls = 1 →
            (updateDescriptorSet s uniforms allocNew).writesInCall
              = some s.nLiveUniformBlocks)) := by
  obtain ⟨n, dd, ds⟩ := s
  constructor
  · intro h
    subst h
    simp [updateDescriptorSet]
  · intro hn
    have hn' : (n == 0) = false := by
      simp only [beq_eq_false_iff_ne, ne_eq]
      exact hn
    rcases dd <;> rcases ds <;>
      rcases hfbo : anySamplerAttachedToFBO uniforms <;> rcases allocNew <;>
        simp [updateDescriptorSet, hn', hfbo]

/-- Witness for C3: one live block, clean flags, no FBO-attached sampler:
zero native calls; and with the sampler flag set: one call covering the
block. -/
theorem updateDescriptorSet_batches_once_witness :
    ((updateDescriptorSet
        { nLiveUniformBlocks := 1, updateDescriptorData := false, updateDescriptorSets := false }
        [] false).nativeWriteCalls ≤ 1)
    ∧ ((updateDescriptorSet
        { nLiveUniformBlocks := 1, updateDescriptorData := false, updateDescriptorSets := true }
        [] false).writesInCall = some 1) := by
  have h1 := (updateDescriptorSet_batches_once
    { nLiveUniformBlocks := 1, updateDescriptorData := false, updateDescriptorSets := false }
    [] false).2 (by decide)
  have h2 := (updateDescriptorSet_batches_once
    { nLiveUniformBlocks := 1, updateDescriptorData := false, updateDescriptorSets := true }
    [] false).2 (by decide)
  exact ⟨h1.1, h2.2.2 (h2.2.1.mpr (Or.inl rfl))⟩

/-! ## Sampler/texture descriptor resolution
(ShaderProgram::UpdateSamplerDescriptors, case analysis at
shaderProgram.cpp:1129-1185) -/

/-- A texture object as the resolution step sees it: object identity,
completeness checks (Texture::IsCompleted / IsNPOTAccessCompleted, external
collaborator answers carried as fields), and its pixel data as rows. -/
structure TextureObj where
  tid : Nat
  completed : Bool
  npotOk : Bool
  rows : List (List Nat)
deriving DecidableEq, Repr

/-- A framebuffer's color attachment as IsTextureAttachedToFBO inspects it:
whether the attachment type is GL_TEXTURE and which texture object it is. -/
structure FramebufferObj where
  colorAttachmentIsTexture : Bool
  colorAttachmentTexId : Nat
deriving DecidableEq, Repr

/-- ResourceManager::IsTextureAttachedToFBO (resourceManager.cpp section,
lines 1430-1444): some framebuffer's color attachment is of texture type and
is this very texture object. -/
def isTextureAttachedToFBO (fbs : List FramebufferObj) (t : TextureObj) : Bool :=
  fbs.any fun fb => fb.colorAttachmentIsTexture && fb.colorAttachmentTexId == t.tid

/-- Modelled from the spec: CopyPixelsToHost with
srcRect.y = GetInvertedYOrigin(&srcRect) — the Vulkan/GL Y-origin inversion —
reads the source image bottom-up, i.e. reverses the row order.  (Both routines
belong to the external Texture/image collaborator.) -/
def invertedPixelData (t : TextureObj) : List (List Nat) := t.rows.reverse

/-- What one sampler slot of the batched descriptor write ends up referencing:
the texture object whose image view is written into the descriptor, and the
texture handed to CacheManager::CacheTexture, if any. -/
structure SamplerResolution where
  boundTexId : Nat
  boundRows : List (List Nat)
  cachedCopy : Option Nat
deriving DecidableEq, Repr

/-- The per-sampler case analysis of UpdateSamplerDescriptors
(shaderProgram.cpp:1129-1187): (1) incomplete or NPOT-violating texture: the
original object is overwritten with a 1x1 opaque-black placeholder and bound
itself; (2) complete texture attached to an FBO color target: its pixels are
copied with Y-inversion into a brand-new texture object (fresh id supplied by
the allocator), the copy is bound for sampling, and — being complete like its
source (it is built by SetState from the source's full-size data, Modelled
from the spec) — is handed to the cache collaborator; (3) otherwise the
texture is bound directly. -/
def resolveSamplerTexture (fbs : List FramebufferObj) (freshId : Nat)
    (t : TextureObj) : SamplerResolution :=
  if !t.completed || !t.npotOk then
    { boundTexId := t.tid, boundRows := [[0, 0, 0, 255]], cachedCopy := none }
  else if isTextureAttachedToFBO fbs t then
    let copy : TextureObj :=
      { tid := freshId, completed := t.completed, npotOk := t.npotOk
        rows := invertedPixelData t }
    { boundTexId := copy.tid, boundRows := copy.rows
      cachedCopy := if copy.completed then some copy.tid else none }
  else
    { boundTexId := t.tid, boundRows := t.rows, cachedCopy := none }

/-- C5: for a complete (and NPOT-admissible) texture currently attached as a
framebuffer color attachment, the descriptor never binds the texture's own
image: it binds a brand-new texture object holding the Y-inverted copy of the
pixels, and that copy is handed to the cache collaborator. -/
theorem resolveSamplerTexture_fbo_uses_copy
    (fbs : List FramebufferObj) (freshId : Nat) (t : TextureObj)
    (hc : t.completed = true) (hn : t.npotOk = true)
    (hfbo : isTextureAttachedToFBO fbs t = true)
    (hfresh : freshId ≠ t.tid) :
    (resolveSamplerTexture fbs freshId t).boundTexId ≠ t.tid
      ∧ (resolveSamplerTexture fbs freshId t).boundTexId = freshId
      ∧ (resolveSamplerTexture fbs freshId t).boundRows = t.rows.reverse
      ∧ (resolveSamplerTexture fbs freshId t).cachedCopy = some freshId := by
  simp [resolveSamplerTexture, invertedPixelData, hc, hn, hfbo, hfresh]

/-- Witness for C5 at a concrete 2-row texture attached to the sole
framebuffer: the bound object is the fresh copy with reversed rows. -/
theorem resolveSamplerTexture_fbo_uses_copy_witness :
    (resolveSamplerTexture
        [{ colorAttachmentIsTexture := true, colorAttachmentTexId := 7 }] 9
        { tid := 7, completed := true, npotOk := true, rows := [[1, 2], [3, 4]] }).boundTexId = 9
      ∧ (resolveSamplerTexture
        [{ colorAttachmentIsTexture := true, colorAttachmentTexId := 7 }] 9
        { tid := 7, completed := true, npotOk := true, rows := [[1, 2], [3, 4]] }).boundRows
          = [[3, 4], [1, 2]]
      ∧ (resolveSamplerTexture
        [{ colorAttachmentIsTexture := true, colorAttachmentTexId := 7 }] 9
        { tid := 7, completed := true, npotOk := true, rows := [[1, 2], [3, 4]] }).cachedCopy
          = some 9 := by
  have h := resolveSamplerTexture_fbo_uses_copy
    [{ colorAttachmentIsTexture := true, colorAttachmentTexId := 7 }] 9
    { tid := 7, completed := true, npotOk := true, rows := [[1, 2], [3, 4]] }
    (by decide) (by decide) (by decide) (by decide)
  exact ⟨h.2.1, h.2.2.1, h.2.2.2⟩

/-! ## Index buffer preparation
(ShaderProgram::PrepareIndexBufferObject / GetMaxIndex / ConvertIndexBufferToUint16) -/

/-- Little-endian bytes of a uint16_t value. -/
def bytesOfU16 (n : Nat) : List Nat := [n % 256, n / 256 % 256]

/-- Little-endian bytes of a uint32_t value. -/
def bytesOfU32 (n : Nat) : List Nat :=
  [n % 256, n / 256 % 256, n / 65536 % 256, n / 16777216 % 256]

/-- Reinterpreting a byte buffer as an array of uint16_t values, as
GetMaxIndex's `uint16_t* srcData` cast does (little-endian). -/
def u16ViewOfBytes : List Nat → List Nat
  | b0 :: b1 :: rest => (b0 + 256 * b1) :: u16ViewOfBytes rest
  | [b0] => [b0]
  | [] => []

/-- The GLenum element types accepted for index data. -/
inductive GLIndexElemType where
  | unsignedByte
  | unsignedShort
  | unsignedInt
deriving DecidableEq, Repr

/-- Element byte size as PrepareIndexBufferObject computes it:
type == GL_UNSIGNED_INT ? sizeof(GLuint) : sizeof(GLushort). -/
def elemSize : GLIndexElemType → Nat
  | GLIndexElemType.unsignedInt => 4
  | _ => 2

/-- The raw byte stream of a list of index values in the given element type
(what the client's index array or bound buffer contains). -/
def encodeIndices : GLIndexElemType → List Nat → List Nat
  | GLIndexElemType.unsignedByte, vs => vs.map (· % 256)
  | GLIndexElemType.unsignedShort, vs => vs.flatMap bytesOfU16
  | GLIndexElemType.unsignedInt, vs => vs.flatMap bytesOfU32

/-- ShaderProgram::GetMaxIndex (shaderProgram.cpp:475-493): reads actualSize
bytes of the buffer at the byte offset into a uint16_t array — regardless of
the element type — initializes maxIndex with srcData[0] and loops i from
indexCount-1 down to 1 taking the larger srcData[i].  (indexCount ≥ 1 is
assumed: with indexCount 0 the C++ uint32_t loop counter would wrap and read
out of bounds, which truncated Nat subtraction does not replicate.) -/
def getMaxIndex (bufferBytes : List Nat) (indexCount : Nat) (offset : Nat) : Nat :=
  let src := u16ViewOfBytes (bufferBytes.drop offset)
  (((List.range (indexCount - 1)).map (· + 1)).reverse).foldl
    (fun maxIndex i =>
      let index := src.getD i 0
      if maxIndex < index then index else maxIndex)
    (src.getD 0 0)

/-- ShaderProgram::ConvertIndexBufferToUint16 via ConvertBuffer<uint8_t,
uint16_t> (shaderProgram.cpp:450-465): widens elementCount unsigned bytes to
unsigned shorts, preserving values. -/
def convertBufferU8toU16 (src : List Nat) (elementCount : Nat) : List Nat :=
  src.take elementCount

/-- Where the index data comes from: a bound element-array buffer (indices
parameter is a byte offset) or a client-side array (indices parameter is the
data). -/
inductive IndexSource where
  | boundBuffer (bufferBytes : List Nat) (offsetPtr : Nat)
  | clientArray (bytes : List Nat)
deriving DecidableEq, Repr

/-- What PrepareIndexBufferObject resolves for the draw call. -/
structure PreparedIndexBuffer where
  bufferBytes : List Nat
  firstIndexOffset : Nat
  freshExplicitBuffer : Bool
  maxIndex : Nat
deriving DecidableEq, Repr

/-- ShaderProgram::PrepareIndexBufferObject (shaderProgram.cpp:495-545),
non-line-loop path (IsModeLineLoop() false): unsigned-byte data — from a bound
buffer or the client array — is widened to unsigned shorts into a freshly
allocated explicit index buffer at offset 0; other types from a bound buffer
are used in place at the given byte offset; other types from a client array
are copied into a fresh explicit buffer of actualSize bytes.  maxIndex is then
computed by GetMaxIndex on the resolved buffer and offset. -/
def prepareIndexBufferObject (t : GLIndexElemType) (indexCount : Nat)
    (src : IndexSource) : PreparedIndexBuffer :=
  match src with
  | IndexSource.boundBuffer bufferBytes off =>
    if t == GLIndexElemType.unsignedByte then
      let srcData := (bufferBytes.drop off).take indexCount
      let widened := convertBufferU8toU16 srcData indexCount
      let ebytes := widened.flatMap bytesOfU16
      { bufferBytes := ebytes, firstIndexOffset := 0, freshExplicitBuffer := true
        maxIndex := getMaxIndex ebytes indexCount 0 }
    else
      { bufferBytes := bufferBytes, firstIndexOffset := off, freshExplicitBuffer := false
        maxIndex := getMaxIndex bufferBytes indexCount off }
  | IndexSource.clientArray raw =>
    if t == GLIndexElemType.unsignedByte then
      let widened := convertBufferU8toU16 raw indexCount
      let ebytes := widened.flatMap bytesOfU16
      { bufferBytes := ebytes, firstIndexOffset := 0, freshExplicitBuffer := true
        maxIndex := getMaxIndex ebytes indexCount 0 }
    else
      let ebytes := raw.take (indexCount * elemSize t)
      { bufferBytes := ebytes, firstIndexOffset := 0, freshExplicitBuffer := true
        maxIndex := getMaxIndex ebytes indexCount 0 }

/-- C6 (code bug): unsigned-byte data is indeed widened to unsigned-short in a
fresh explicit buffer with an exact maxIndex, and unsigned-short maxIndex is
exact — but GetMaxIndex reads the buffer as uint16_t regardless of element
type, so for the single GL_UNSIGNED_INT index 65536 it returns 0 instead of
the true maximum 65536. -/
theorem getMaxIndex_wrong_for_unsigned_int :
    ((prepareIndexBufferObject GLIndexElemType.unsignedByte 2
        (IndexSource.clientArray
          (encodeIndices GLIndexElemType.unsignedByte [3, 200]))).freshExplicitBuffer = true
      ∧ (prepareIndexBufferObject GLIndexElemType.unsignedByte 2
        (IndexSource.clientArray
          (encodeIndices GLIndexElemType.unsignedByte [3, 200]))).bufferBytes
          = encodeIndices GLIndexElemType.unsignedShort [3, 200]
      ∧ (prepareIndexBufferObject GLIndexElemType.unsignedByte 2
        (IndexSource.clientArray
          (encodeIndices GLIndexElemType.unsignedByte [3, 200]))).maxIndex = 200)
    ∧ ((prepareIndexBufferObject GLIndexElemType.unsignedByte 2
        (IndexSource.boundBuffer
          (encodeIndices GLIndexElemType.unsignedByte [3, 200]) 0)).freshExplicitBuffer = true
      ∧ (prepareIndexBufferObject GLIndexElemType.unsignedByte 2
        (IndexSource.boundBuffer
          (encodeIndices GLIndexElemType.unsignedByte [3, 200]) 0)).bufferBytes
          = encodeIndices GLIndexElemType.unsignedShort [3, 200])
    ∧ (prepareIndexBufferObject GLIndexElemType.unsignedShort 2
        (IndexSource.clientArray
          (encodeIndices GLIndexElemType.unsignedShort [3, 200]))).maxIndex = 200
    ∧ (prepareIndexBufferObject GLIndexElemType.unsignedInt 1
        (IndexSource.clientArray
          (encodeIndices GLIndexElemType.unsignedInt [65536]))).maxIndex = 0
    ∧ List.foldr max 0 [65536] = 65536 := by
  decide

/-! ## The shading namespace pool
(ResourceManager::PushShadingObject / EraseShadingObject / IsShadingObject,
resourceManager.cpp section, lines 1300-1384) -/

/-- mShadingObjectCount is a uint32_t. -/
def U32MOD : Nat := 4294967296

/-- A ShadingNamespace_t entry: the type tag (SHADER_ID /
SHADER_PROGRAM_ID) and the index into the typed object pool. -/
structure ShadingNamespaceEntry where
  objType : Nat
  arrayIndex : Nat
deriving DecidableEq, Repr

/-- The shading-namespace state: the monotonic counter mShadingObjectCount and
the id-keyed map mShadingObjectPool (association list, most recent insertion
first, at most one entry per key). -/
structure ShadingObjectPool where
  shadingObjectCount : Nat
  pool : List (Nat × ShadingNamespaceEntry)
deriving DecidableEq, Repr

/-- ResourceManager's constructor initializes mShadingObjectCount(1) with an
empty pool. -/
def initialShadingPool : ShadingObjectPool := { shadingObjectCount := 1, pool := [] }

/-- ResourceManager::PushShadingObject: stores the object under the current
counter value, returns that value, and post-increments the uint32_t counter. -/
def pushShadingObject (s : ShadingObjectPool) (obj : ShadingNamespaceEntry) :
    ShadingObjectPool × Nat :=
  ({ shadingObjectCount := (s.shadingObjectCount + 1) % U32MOD
     pool := (s.shadingObjectCount, obj)
               :: s.pool.filter (fun p => p.1 != s.shadingObjectCount) },
   s.shadingObjectCount)

/-- ResourceManager::EraseShadingObject: mShadingObjectPool.erase(id). -/
def eraseShadingObject (s : ShadingObjectPool) (id : Nat) : ShadingObjectPool :=
  { s with pool := s.pool.filter (fun p => p.1 != id) }

/-- ResourceManager::ShadingObjectExists (inlined in IsShadingObject). -/
def shadingObjectExists (s : ShadingObjectPool) (id : Nat) : Bool :=
  (s.pool.lookup id).isSome

/-- ResourceManager::IsShadingObject: false for index 0, for indices at or
beyond the counter, and for absent ids; otherwise the stored entry must have a
nonzero arrayIndex and the requested type tag. -/
def isShadingObject (s : ShadingObjectPool) (index : Nat) (t : Nat) : Bool :=
  if index == 0 || decide (index ≥ s.shadingObjectCount)
      || !(shadingObjectExists s index) then
    false
  else
    match s.pool.lookup index with
    | some e => e.arrayIndex != 0 && e.objType == t
    | none => false

/-- Client operations on the shading namespace pool. -/
inductive PoolOp where
  | push (obj : ShadingNamespaceEntry)
  | erase (id : Nat)
deriving DecidableEq, Repr

/-- One operation; a push also yields the returned id. -/
def poolStep (s : ShadingObjectPool) (op : PoolOp) : ShadingObjectPool × Option Nat :=
  match op with
  | PoolOp.push obj => let r := pushShadingObject s obj; (r.1, some r.2)
  | PoolOp.erase id => (eraseShadingObject s id, none)

/-- Run a sequence of operations, collecting the ids the pushes return, in
order. -/
def poolRun (s : ShadingObjectPool) : List PoolOp → ShadingObjectPool × List Nat
  | [] => (s, [])
  | op :: ops =>
    let r := poolStep s op
    let rest := poolRun r.1 ops
    (rest.1, (match r.2 with | some id => [id] | none => []) ++ rest.2)

/-- Number of pushes in an operation sequence. -/
def numPushes (ops : List PoolOp) : Nat :=
  ops.countP fun op => match op with | PoolOp.push _ => true | _ => false

theorem poolRun_counter_and_ids (ops : List PoolOp) :
    ∀ s : ShadingObjectPool, s.shadingObjectCount + numPushes ops < U32MOD →
      (poolRun s ops).1.shadingObjectCount = s.shadingObjectCount + numPushes ops
      ∧ (poolRun s ops).2
          = (List.range (numPushes ops)).map (s.shadingObjectCount + ·) := by
  induction ops with
  | nil =>
    intro s _
    simp [poolRun, numPushes]
  | cons op ops ih =>
    intro s hlt
    match op with
    | PoolOp.push obj =>
      have hn : numPushes (PoolOp.push obj :: ops) = numPushes ops + 1 := by
        simp [numPushes, List.countP_cons]
      rw [hn] at hlt
      have hc1 : (s.shadingObjectCount + 1) % U32MOD = s.shadingObjectCount + 1 :=
        Nat.mod_eq_of_lt (by omega)
      have hih := ih (pushShadingObject s obj).1 (by
        simp only [pushShadingObject, hc1]
        omega)
      simp only [pushShadingObject, hc1] at hih
      simp only [poolRun, poolStep, pushShadingObject, hc1, hn]
      refine ⟨by rw [hih.1]; omega, ?_⟩
      rw [hih.2, List.range_succ_eq_map]
      simp only [List.map_cons, List.map_map, Nat.add_zero, List.cons_append,
        List.nil_append, List.singleton_append]
      congr 1
      apply List.map_congr_left
      intro a _
      simp [Function.comp]
      omega
    | PoolOp.erase id =>
      have hn : numPushes (PoolOp.erase id :: ops) = numPushes ops := by
        simp [numPushes, List.countP_cons]
      rw [hn] at hlt
      have hih := ih (eraseShadingObject s id) (by simp [eraseShadingObject]; omega)
      simp only [eraseShadingObject] at hih
      simp only [poolRun, poolStep, eraseShadingObject, hn]
      exact ⟨hih.1, by rw [hih.2]; simp⟩

/-- C9: IsShadingObject is false for id 0 in every state; starting from the
constructor state, as long as the uint32_t counter cannot wrap, the ids
returned by successive PushShadingObject calls are pairwise strictly
increasing (each later id strictly greater than every earlier one), all are
nonzero, and an id that was handed out and then erased is never returned by
any later push. -/
theorem shadingNamespace_id_invariants :
    (∀ (s : ShadingObjectPool) (t : Nat), isShadingObject s 0 t = false)
    ∧ (∀ ops : List PoolOp, 1 + numPushes ops < U32MOD →
        List.Pairwise (· < ·) (poolRun initialShadingPool ops).2
        ∧ (∀ id ∈ (poolRun initialShadingPool ops).2, 0 < id)
        ∧ (∀ (ops1 : List PoolOp) (id : Nat) (ops2 : List PoolOp),
            ops = ops1 ++ PoolOp.erase id :: ops2 →
            id ∈ (poolRun initialShadingPool ops1).2 →
            id ∉ (poolRun
                (eraseShadingObject (poolRun initialShadingPool ops1).1 id) ops2).2)) := by
  constructor
  · intro s t
    simp [isShadingObject]
  · intro ops hlt
    have hrun := poolRun_counter_and_ids ops initialShadingPool
      (by simpa [initialShadingPool] using hlt)
    refine ⟨?_, ?_, ?_⟩
    · rw [hrun.2]
      refine (List.pairwise_lt_range _).map _ ?_
      intro a b hab
      show 1 + a < 1 + b
      omega
    · intro id hid
      rw [hrun.2] at hid
      rcases List.mem_map.mp hid with ⟨i, _, hi⟩
      simp only [initialShadingPool] at hi
      omega
    · intro ops1 id ops2 hsplit hid1
      subst hsplit
      have hcount : numPushes (ops1 ++ PoolOp.erase id :: ops2)
          = numPushes ops1 + numPushes ops2 := by
        simp [numPushes, List.countP_append, List.countP_cons]
      rw [hcount] at hlt
      have hrun1 := poolRun_counter_and_ids ops1 initialShadingPool
        (by simp only [initialShadingPool]; omega)
      have hidlt : id < 1 + numPushes ops1 := by
        rw [hrun1.2] at hid1
        rcases List.mem_map.mp hid1 with ⟨i, hi, he⟩
        simp only [initialShadingPool] at he
        have := List.mem_range.mp hi
        omega
      have hcnt1 : (poolRun initialShadingPool ops1).1.shadingObjectCount
          = 1 + numPushes ops1 := by
        rw [hrun1.1]; simp [initialShadingPool]
      have hrun2 := poolRun_counter_and_ids ops2
        (eraseShadingObject (poolRun initialShadingPool ops1).1 id)
        (by simp only [eraseShadingObject, hcnt1]; omega)
      intro hid2
      rw [hrun2.2] at hid2
      rcases List.mem_map.mp hid2 with ⟨i, _, he⟩
      simp only [eraseShadingObject, hcnt1] at he
      omega

/-- Witness for C9: after pushing an object (id 1), erasing id 1, a further
push does not return 1 again. -/
theorem shadingNamespace_id_invariants_witness :
    (1 : Nat) ∉ (poolRun
        (eraseShadingObject
          (poolRun initialShadingPool [PoolOp.push { objType := 0, arrayIndex := 1 }]).1 1)
        [PoolOp.push { objType := 0, arrayIndex := 1 }]).2 :=
  (shadingNamespace_id_invariants.2
      [PoolOp.push { objType := 0, arrayIndex := 1 }, PoolOp.erase 1,
        PoolOp.push { objType := 0, arrayIndex := 1 }]
      (by decide)).2.2
    [PoolOp.push { objType := 0, arrayIndex := 1 }] 1
    [PoolOp.push { objType := 0, arrayIndex := 1 }] rfl (by decide)

/-! ## Vertex input binding assembly
(ShaderProgram::UpdateVertexAttribProperties /
GenerateVertexInputProperties, shaderProgram.cpp:564-690) -/

/-- What one GenericVertexAttribute slot contributes to binding assignment:
the native VkBuffer handle of its (possibly internally generated) buffer, and
its stride — the components of the BUFFER_STRIDE_PAIR map key.  VkBuffer
handles are pointers, so std::map's default comparison orders them by
address value. -/
structure GvaState where
  vkBuffer : Nat
  stride : Int
deriving DecidableEq, Repr

/-- One live attribute of the reflection: its location and the number of
locations it occupies (OccupiedLocationsPerGlType of its GL type, e.g. 4 for
a mat4). -/
structure LiveAttribute where
  location : Nat
  occupiedLocations : Nat
deriving DecidableEq, Repr

/-- The location stream the loops of UpdateVertexAttribProperties and
GenerateVertexInputProperties traverse: for each live attribute in order, its
occupied locations attributelocation + j. -/
def expandedLocations (attrs : List LiveAttribute) : List Nat :=
  attrs.flatMap fun a => (List.range a.occupiedLocations).map (a.location + ·)

/-- The locationUsed filter of both loops: keep only the first occurrence of
each element, given the already-seen ones. -/
def firstOccurrences {α : Type} [DecidableEq α] : List α → List α → List α
  | [], _ => []
  | x :: xs, seen =>
    if x ∈ seen then firstOccurrences xs seen
    else x :: firstOccurrences xs (x :: seen)

/-- The distinct locations processed, in traversal order. -/
def liveSlots (attrs : List LiveAttribute) : List Nat :=
  firstOccurrences (expandedLocations attrs) []

/-- The BUFFER_STRIDE_PAIR key of a location: (vbo->GetVkBuffer(),
gva.GetStride()). -/
def keyOf (gva : Nat → GvaState) (loc : Nat) : Nat × Int :=
  ((gva loc).vkBuffer, (gva loc).stride)

/-- std::map's strict order on std::pair of VkBuffer and int32_t:
lexicographic. -/
def keyLt (a b : Nat × Int) : Prop :=
  a.1 < b.1 ∨ (a.1 = b.1 ∧ a.2 < b.2)

/-- The induced non-strict order. -/
def keyLe (a b : Nat × Int) : Prop :=
  a.1 < b.1 ∨ (a.1 = b.1 ∧ a.2 ≤ b.2)

instance : DecidableRel keyLt := fun a b => by
  unfold keyLt; infer_instance

instance : DecidableRel keyLe := fun a b => by
  unfold keyLe; infer_instance

instance : IsTotal (Nat × Int) keyLe :=
  ⟨fun a b => by unfold keyLe; omega⟩

instance : IsTrans (Nat × Int) keyLe :=
  ⟨fun a b c hab hbc => by unfold keyLe at *; omega⟩

/-- The distinct BUFFER_STRIDE_PAIR keys of unique_buffer_stride_map, in the
std::map's iteration (ascending key) order: binding indices are assigned by
position in this list (current_binding++ over map iteration,
shaderProgram.cpp:638-648). -/
def sortedUniqueKeys (gva : Nat → GvaState) (attrs : List LiveAttribute) :
    List (Nat × Int) :=
  List.insertionSort keyLe (firstOccurrences ((liveSlots attrs).map (keyOf gva)) [])

/-- Position of a key in a key list (0-based; length if absent). -/
def keyIndex (k : Nat × Int) : List (Nat × Int) → Nat
  | [] => 0
  | x :: xs => if x = k then 0 else keyIndex k xs + 1

/-- The binding index vboLocationBindings assigns to a processed location:
the position of its key in the map's iteration order. -/
def vboLocationBinding (gva : Nat → GvaState) (attrs : List LiveAttribute)
    (loc : Nat) : Nat :=
  keyIndex (keyOf gva loc) (sortedUniqueKeys gva attrs)

/-- mActiveVertexVkBuffersCount after the assignment: one binding per
distinct key. -/
def activeVertexBindingCount (gva : Nat → GvaState) (attrs : List LiveAttribute) : Nat :=
  (sortedUniqueKeys gva attrs).length

/-- The binding assignment the claim describes: distinct keys numbered in
first-seen traversal order. -/
def firstSeenBinding (gva : Nat → GvaState) (attrs : List LiveAttribute)
    (loc : Nat) : Nat :=
  keyIndex (keyOf gva loc) (firstOccurrences ((liveSlots attrs).map (keyOf gva)) [])

theorem firstOccurrences_mem {α : Type} [DecidableEq α] :
    ∀ (l seen : List α) (x : α),
      x ∈ firstOccurrences l seen ↔ (x ∈ l ∧ x ∉ seen) := by
  intro l
  induction l with
  | nil => intro seen x; simp [firstOccurrences]
  | cons y ys ih =>
    intro seen x
    by_cases hy : y ∈ seen
    · rw [firstOccurrences, if_pos hy, ih]
      constructor
      · rintro ⟨h1, h2⟩; exact ⟨List.mem_cons_of_mem y h1, h2⟩
      · rintro ⟨h1, h2⟩
        rcases List.mem_cons.mp h1 with he | h1'
        · exact absurd (he ▸ hy) h2
        · exact ⟨h1', h2⟩
    · rw [firstOccurrences, if_neg hy]
      constructor
      · intro hmem
        rcases List.mem_cons.mp hmem with he | hmem'
        · exact ⟨he ▸ List.mem_cons_self y ys, he ▸ hy⟩
        · rcases (ih _ x).mp hmem' with ⟨h1, h2⟩
          refine ⟨List.mem_cons_of_mem y h1, fun hc => h2 (List.mem_cons_of_mem y hc)⟩
      · rintro ⟨h1, h2⟩
        rcases List.mem_cons.mp h1 with he | h1'
        · exact he ▸ List.mem_cons_self y _
        · by_cases hxy : x = y
          · exact hxy ▸ List.mem_cons_self y _
          · exact List.mem_cons_of_mem y ((ih _ x).mpr
              ⟨h1', fun hc => (List.mem_cons.mp hc).elim hxy h2⟩)

theorem firstOccurrences_nodup {α : Type} [DecidableEq α] :
    ∀ (l seen : List α), (firstOccurrences l seen).Nodup := by
  intro l
  induction l with
  | nil => intro seen; simp [firstOccurrences]
  | cons y ys ih =>
    intro seen
    by_cases hy : y ∈ seen
    · rw [firstOccurrences, if_pos hy]; exact ih seen
    · rw [firstOccurrences, if_neg hy]
      refine List.nodup_cons.mpr ⟨?_, ih (y :: seen)⟩
      intro hc
      exact ((firstOccurrences_mem ys (y :: seen) y).mp hc).2 (List.mem_cons_self y seen)

theorem keyLt_irrefl (a : Nat × Int) : ¬ keyLt a a := by
  unfold keyLt; omega

theorem keyLt_asymm (a b : Nat × Int) : keyLt a b → keyLt b a → False := by
  unfold keyLt; omega

theorem keyLt_of_keyLe_ne (a b : Nat × Int) (h1 : keyLe a b) (h2 : a ≠ b) :
    keyLt a b := by
  obtain ⟨a1, a2⟩ := a
  obtain ⟨b1, b2⟩ := b
  have h2' : ¬ (a1 = b1 ∧ a2 = b2) := by
    rintro ⟨e1, e2⟩
    exact h2 (by rw [e1, e2])
  simp only [keyLe] at h1
  simp only [keyLt]
  omega

theorem mem_sortedUniqueKeys (gva : Nat → GvaState) (attrs : List LiveAttribute)
    (k : Nat × Int) :
    k ∈ sortedUniqueKeys gva attrs ↔ k ∈ (liveSlots attrs).map (keyOf gva) := by
  unfold sortedUniqueKeys
  rw [List.mem_insertionSort, firstOccurrences_mem]
  exact and_iff_left (List.not_mem_nil k)

theorem pairwise_keyLt_of_sorted_nodup :
    ∀ (l : List (Nat × Int)), l.Sorted keyLe → l.Nodup → l.Pairwise keyLt := by
  intro l
  induction l with
  | nil => intro _ _; exact List.Pairwise.nil
  | cons x xs ih =>
    intro hs hn
    rcases List.pairwise_cons.mp hs with ⟨hx, hs'⟩
    rcases List.nodup_cons.mp hn with ⟨hnx, hn'⟩
    refine List.pairwise_cons.mpr ⟨?_, ih hs' hn'⟩
    intro y hy
    refine keyLt_of_keyLe_ne x y (hx y hy) ?_
    intro he
    exact hnx (he ▸ hy)

theorem sortedUniqueKeys_pairwise_keyLt (gva : Nat → GvaState)
    (attrs : List LiveAttribute) :
    (sortedUniqueKeys gva attrs).Pairwise keyLt := by
  refine pairwise_keyLt_of_sorted_nodup _ (List.sorted_insertionSort keyLe _) ?_
  exact ((List.perm_insertionSort keyLe _).nodup_iff).mpr
    (firstOccurrences_nodup _ [])

theorem keyLt_total_of_ne (a b : Nat × Int) (h : a ≠ b) :
    keyLt a b ∨ keyLt b a := by
  obtain ⟨a1, a2⟩ := a
  obtain ⟨b1, b2⟩ := b
  simp only [ne_eq, Prod.mk.injEq, not_and] at h
  simp only [keyLt]
  by_cases h1 : a1 = b1
  · subst h1
    have := h rfl
    omega
  · omega

theorem keyIndex_lt_of_pairwise_keyLt :
    ∀ (l : List (Nat × Int)), l.Pairwise keyLt →
      ∀ (a b : Nat × Int), a ∈ l → b ∈ l → keyLt a b →
        keyIndex a l < keyIndex b l := by
  intro l
  induction l with
  | nil => intro _ a b ha; cases ha
  | cons x xs ih =>
    intro hp a b ha hb hab
    rcases List.pairwise_cons.mp hp with ⟨hx, hp'⟩
    by_cases hax : a = x
    · subst hax
      have hba : ¬ (a = b) := by
        intro he; exact keyLt_irrefl a (he ▸ hab)
      simp only [keyIndex, if_pos rfl, if_neg hba]
      exact Nat.succ_pos _
    · have ha' : a ∈ xs := by
        rcases List.mem_cons.mp ha with he | h
        · exact absurd he hax
        · exact h
      by_cases hbx : b = x
      · exact absurd (hx a ha') (fun hc => keyLt_asymm a b hab (hbx ▸ hc))
      · have hb' : b ∈ xs := by
          rcases List.mem_cons.mp hb with he | h
          · exact absurd he hbx
          · exact h
        have hxa : ¬ (x = a) := fun he => hax (he ▸ rfl)
        have hxb : ¬ (x = b) := fun he => hbx (he ▸ rfl)
        simp only [keyIndex, if_neg hxa, if_neg hxb]
        exact Nat.succ_lt_succ (ih hp' a b ha' hb' hab)

theorem keyIndex_inj_of_pairwise_keyLt (l : List (Nat × Int))
    (hp : l.Pairwise keyLt) (a b : Nat × Int) (ha : a ∈ l) (hb : b ∈ l) :
    keyIndex a l = keyIndex b l ↔ a = b := by
  constructor
  · intro he
    by_contra hne
    rcases keyLt_total_of_ne a b hne with hlt | hlt
    · exact absurd he (Nat.ne_of_lt (keyIndex_lt_of_pairwise_keyLt l hp a b ha hb hlt))
    · exact absurd he.symm
        (Nat.ne_of_lt (keyIndex_lt_of_pairwise_keyLt l hp b a hb ha hlt))
  · intro he
    rw [he]

/-- Concrete input refuting the first-seen order: two single-location
attributes on the same buffer, the first with the larger stride. -/
def gvaStrideSwap : Nat → GvaState :=
  fun loc => if loc = 0 then { vkBuffer := 5, stride := 16 }
             else { vkBuffer := 5, stride := 12 }

/-- The two live attributes at locations 0 and 1. -/
def attrsStrideSwap : List LiveAttribute :=
  [{ location := 0, occupiedLocations := 1 }, { location := 1, occupiedLocations := 1 }]

/-- C2 counterexample: with attributes at locations 0 and 1 both on buffer 5,
location 0 with stride 16 seen first and location 1 with stride 12, the code
assigns binding 1 to location 0 and binding 0 to location 1 (std::map
iterates keys in ascending order), not the first-seen order, which would give
location 0 binding 0. -/
theorem vertexInputBindings_claimC2_not_first_seen :
    vboLocationBinding gvaStrideSwap attrsStrideSwap 0 = 1
      ∧ vboLocationBinding gvaStrideSwap attrsStrideSwap 1 = 0
      ∧ firstSeenBinding gvaStrideSwap attrsStrideSwap 0 = 0
      ∧ vboLocationBinding gvaStrideSwap attrsStrideSwap 0
          ≠ firstSeenBinding gvaStrideSwap attrsStrideSwap 0 := by
  decide

/-- C2 (amended): over the distinct location slots processed for a draw, two
locations get the same binding index iff they have the same (VkBuffer, stride)
pair, and distinct pairs get distinct binding indices — assigned in ascending
(buffer handle, stride) key order (std::map iteration order), not first-seen
order. -/
theorem vertexInputBindings_group_by_buffer_stride
    (gva : Nat → GvaState) (attrs : List LiveAttribute) (l1 l2 : Nat)
    (h1 : l1 ∈ liveSlots attrs) (h2 : l2 ∈ liveSlots attrs) :
    (vboLocationBinding gva attrs l1 = vboLocationBinding gva attrs l2
        ↔ keyOf gva l1 = keyOf gva l2)
    ∧ (keyLt (keyOf gva l1) (keyOf gva l2) →
        vboLocationBinding gva attrs l1 < vboLocationBinding gva attrs l2) := by
  have hm1 : keyOf gva l1 ∈ sortedUniqueKeys gva attrs :=
    (mem_sortedUniqueKeys gva attrs _).mpr (List.mem_map_of_mem (keyOf gva) h1)
  have hm2 : keyOf gva l2 ∈ sortedUniqueKeys gva attrs :=
    (mem_sortedUniqueKeys gva attrs _).mpr (List.mem_map_of_mem (keyOf gva) h2)
  have hp := sortedUniqueKeys_pairwise_keyLt gva attrs
  constructor
  · exact keyIndex_inj_of_pairwise_keyLt _ hp _ _ hm1 hm2
  · intro hlt
    exact keyIndex_lt_of_pairwise_keyLt _ hp _ _ hm1 hm2 hlt

/-- The A/B/C example of the claim: A(buf=X, stride=12), B(buf=X, stride=12),
C(buf=X, stride=16) at locations 0, 1, 2. -/
def gvaABC : Nat → GvaState :=
  fun loc => if loc = 2 then { vkBuffer := 7, stride := 16 }
             else { vkBuffer := 7, stride := 12 }

/-- The three live attributes A, B, C at locations 0, 1, 2. -/
def attrsABC : List LiveAttribute :=
  [{ location := 0, occupiedLocations := 1 },
   { location := 1, occupiedLocations := 1 },
   { location := 2, occupiedLocations := 1 }]

/-- Witness for the C2 amended theorem: A and B share a binding, C gets a
different one, and exactly 2 bindings exist. -/
theorem vertexInputBindings_group_by_buffer_stride_witness :
    vboLocationBinding gvaABC attrsABC 0 = vboLocationBinding gvaABC attrsABC 1
      ∧ vboLocationBinding gvaABC attrsABC 0 ≠ vboLocationBinding gvaABC attrsABC 2
      ∧ activeVertexBindingCount gvaABC attrsABC = 2 := by
  have h01 := vertexInputBindings_group_by_buffer_stride gvaABC attrsABC 0 1
    (by decide) (by decide)
  have h02 := vertexInputBindings_group_by_buffer_stride gvaABC attrsABC 0 2
    (by decide) (by decide)
  refine ⟨h01.1.mpr (by decide), ?_, by decide⟩
  intro he
  exact absurd (h02.1.mp he) (by decide)

/-! ## Program binary serialization
(ShaderProgram::GetBinaryData / UsePrecompiledBinary /
SerializeShadersSpirv / DeserializeShadersSpirv, shaderProgram.cpp:225-276,
692-731) -/

/-- Reading a uint32_t from the head of a byte stream (little-endian), as the
`uint32_t *` casts of the (de)serializers do. -/
def decU32 : List Nat → Nat × List Nat
  | b0 :: b1 :: b2 :: b3 :: rest =>
    (b0 + 256 * b1 + 65536 * b2 + 16777216 * b3, rest)
  | l => (0, l)

/-- A SPIR-V word sequence as raw bytes. -/
def wordsToBytes (ws : List Nat) : List Nat := ws.flatMap bytesOfU32

/-- Reading k uint32_t words from a byte stream (the std::copy of
DeserializeShadersSpirv, size/4 words). -/
def readWords : Nat → List Nat → List Nat × List Nat
  | 0, bs => ([], bs)
  | k + 1, bs =>
    let w := decU32 bs
    let rest := readWords k w.2
    (w.1 :: rest.1, rest.2)

/-- The reflection data the compiler serializes into the program binary: the
live attribute and live uniform descriptors (abstracted to numeric
descriptor words). -/
structure ReflectionData where
  liveAttributes : List Nat
  liveUniforms : List Nat
deriving DecidableEq, Repr

/-- A length-prefixed word list. -/
def encNatList (l : List Nat) : List Nat :=
  bytesOfU32 l.length ++ wordsToBytes l

/-- Modelled from the spec: the compiler collaborator's SerializeReflection —
a self-describing reflection blob whose uint32 length prefix gives the total
blob byte length, followed by the attribute and uniform descriptor lists. -/
def serializeReflection (r : ReflectionData) : List Nat :=
  let payload := encNatList r.liveAttributes ++ encNatList r.liveUniforms
  bytesOfU32 (payload.length + 4) ++ payload

/-- Reading one length-prefixed word list. -/
def decNatList (bs : List Nat) : List Nat × List Nat :=
  let k := decU32 bs
  readWords k.1 k.2

/-- Modelled from the spec: the compiler collaborator's DeserializeReflection,
returning the reflection and the blob length (the reflectionOffset used by
UsePrecompiledBinary). -/
def deserializeReflection (bs : List Nat) : ReflectionData × Nat :=
  let t := decU32 bs
  let a := decNatList t.2
  let u := decNatList a.2
  ({ liveAttributes := a.1, liveUniforms := u.1 }, t.1)

/-- ShaderProgram::SerializeShadersSpirv (shaderProgram.cpp:225-247): uint32
byte length of the vertex SPIR-V, its words, uint32 byte length of the
fragment SPIR-V, its words. -/
def serializeShadersSpirv (vsSpv fsSpv : List Nat) : List Nat :=
  bytesOfU32 (4 * vsSpv.length) ++ wordsToBytes vsSpv
    ++ bytesOfU32 (4 * fsSpv.length) ++ wordsToBytes fsSpv

/-- ShaderProgram::DeserializeShadersSpirv (shaderProgram.cpp:249-276): reads
both size-prefixed blocks (copying size/4 words each, appended by the caller
to the attached shaders' SPV vectors) and returns 2*sizeof(uint32_t) +
vsSpirvSize + fsSpirvSize. -/
def deserializeShadersSpirv (bs : List Nat) : (List Nat × List Nat) × Nat :=
  let v := decU32 bs
  let vw := readWords (v.1 / 4) v.2
  let f := decU32 vw.2
  let fw := readWords (f.1 / 4) f.2
  ((vw.1, fw.1), 8 + v.1 + f.1)

/-- The program state touched by the binary get/load paths.
compilerLinkInvoked records whether any compile/preprocess/link call of the
shader compiler was made on this program. -/
structure ProgramBinaryState where
  linked : Bool
  isPrecompiled : Bool
  compilerLinkInvoked : Bool
  reflection : ReflectionData
  vsSpv : List Nat
  fsSpv : List Nat
  pipelineCacheBlob : Option (List Nat)
deriving DecidableEq, Repr

/-- ShaderProgram::GetBinaryData (shaderProgram.cpp:712-731): serialized
reflection, then the SPIR-V blocks, then the native pipeline-cache data;
binarySize is reported as their total, or 0 when the pipeline cache handle is
VK_NULL_HANDLE. -/
def getBinaryData (p : ProgramBinaryState) : List Nat × Nat :=
  match p.pipelineCacheBlob with
  | some cache =>
    let bin := serializeReflection p.reflection
                 ++ serializeShadersSpirv p.vsSpv p.fsSpv ++ cache
    (bin, bin.length)
  | none =>
    (serializeReflection p.reflection ++ serializeShadersSpirv p.vsSpv p.fsSpv, 0)

/-- ShaderProgram::UsePrecompiledBinary (shaderProgram.cpp:692-710): sets
mLinked, deserializes the reflection, appends the deserialized SPIR-V words to
the attached shaders' (empty, on a fresh program) SPV vectors, rebuilds the
resource interface from the deserialized reflection, and creates the pipeline
cache from the remaining bytes.  No compiler compile/preprocess/link call is
made.  (The size argument the code passes to PipelineCache::Create is
binarySize - reflectionOffset, which overstates the remaining bytes by the
SPIR-V block length; the byte-list model carries the bytes actually available
from vulkanDataPtr onward.) -/
def usePrecompiledBinary (p : ProgramBinaryState) (binary : List Nat) :
    ProgramBinaryState :=
  let r := deserializeReflection binary
  let s := deserializeShadersSpirv (binary.drop r.2)
  { p with linked := true
           isPrecompiled := true
           reflection := r.1
           vsSpv := p.vsSpv ++ s.1.1
           fsSpv := p.fsSpv ++ s.1.2
           pipelineCacheBlob := some (binary.drop (r.2 + s.2)) }

/-- A freshly created program (constructor state) with two attached shaders
whose SPV vectors are empty. -/
def freshProgram : ProgramBinaryState :=
  { linked := false, isPrecompiled := false, compilerLinkInvoked := false
    reflection := { liveAttributes := [], liveUniforms := [] }
    vsSpv := [], fsSpv := [], pipelineCacheBlob := none }

/-- A successfully linked program about to be serialized. -/
def linkedProgramState (r : ReflectionData) (vs fs cache : List Nat) :
    ProgramBinaryState :=
  { linked := true, isPrecompiled := false, compilerLinkInvoked := true
    reflection := r, vsSpv := vs, fsSpv := fs, pipelineCacheBlob := some cache }

theorem bytesOfU32_length (n : Nat) : (bytesOfU32 n).length = 4 := rfl

theorem decU32_encode (n : Nat) (h : n < 4294967296) (rest : List Nat) :
    decU32 (bytesOfU32 n ++ rest) = (n, rest) := by
  simp only [bytesOfU32, List.cons_append, List.nil_append, decU32]
  rw [Prod.mk.injEq]
  exact ⟨by omega, rfl⟩

theorem readWords_encode :
    ∀ (ws : List Nat), (∀ w ∈ ws, w < 4294967296) → ∀ (rest : List Nat),
      readWords ws.length (wordsToBytes ws ++ rest) = (ws, rest) := by
  intro ws
  induction ws with
  | nil => intro _ rest; simp [readWords, wordsToBytes]
  | cons w ws ih =>
    intro h rest
    have hw : w < 4294967296 := h w (List.mem_cons_self w ws)
    simp only [wordsToBytes, List.flatMap_cons, List.length_cons, readWords,
      List.append_assoc]
    rw [decU32_encode w hw]
    have := ih (fun x hx => h x (List.mem_cons_of_mem w hx)) rest
    simp only [wordsToBytes] at this
    rw [this]

theorem wordsToBytes_length (ws : List Nat) :
    (wordsToBytes ws).length = 4 * ws.length := by
  induction ws with
  | nil => simp [wordsToBytes]
  | cons w ws ih =>
    have hstep : wordsToBytes (w :: ws) = bytesOfU32 w ++ wordsToBytes ws := by
      simp [wordsToBytes]
    rw [hstep, List.length_append, bytesOfU32_length, ih, List.length_cons]
    omega

theorem encNatList_length (l : List Nat) :
    (encNatList l).length = 4 + 4 * l.length := by
  rw [encNatList, List.length_append, bytesOfU32_length, wordsToBytes_length]

theorem serializeReflection_length (r : ReflectionData) :
    (serializeReflection r).length
      = 12 + 4 * r.liveAttributes.length + 4 * r.liveUniforms.length := by
  simp only [serializeReflection, List.length_append, bytesOfU32_length,
    encNatList_length]
  omega

theorem decNatList_encode (l : List Nat) (h : ∀ w ∈ l, w < 4294967296)
    (hl : l.length < 4294967296) (rest : List Nat) :
    decNatList (encNatList l ++ rest) = (l, rest) := by
  simp only [decNatList, encNatList, List.append_assoc]
  rw [decU32_encode l.length hl]
  exact readWords_encode l h rest

theorem deserializeReflection_round (r : ReflectionData) (rest : List Nat)
    (ha : ∀ w ∈ r.liveAttributes, w < 4294967296)
    (hu : ∀ w ∈ r.liveUniforms, w < 4294967296)
    (hlen : 12 + 4 * r.liveAttributes.length + 4 * r.liveUniforms.length
              < 4294967296) :
    deserializeReflection (serializeReflection r ++ rest)
      = (r, (serializeReflection r).length) := by
  have hal : r.liveAttributes.length < 4294967296 := by omega
  have hul : r.liveUniforms.length < 4294967296 := by omega
  have hplen : (encNatList r.liveAttributes ++ encNatList r.liveUniforms).length + 4
      < 4294967296 := by
    simp only [List.length_append, encNatList_length]
    omega
  simp only [deserializeReflection, serializeReflection, List.append_assoc,
    decU32_encode _ hplen, decNatList_encode r.liveAttributes ha hal,
    decNatList_encode r.liveUniforms hu hul]
  rw [Prod.mk.injEq]
  refine ⟨rfl, ?_⟩
  simp only [List.length_append, bytesOfU32_length, encNatList_length]
  omega

theorem deserializeShadersSpirv_round (vs fs rest : List Nat)
    (hv : ∀ w ∈ vs, w < 4294967296) (hf : ∀ w ∈ fs, w < 4294967296)
    (hvl : 4 * vs.length < 4294967296) (hfl : 4 * fs.length < 4294967296) :
    deserializeShadersSpirv (serializeShadersSpirv vs fs ++ rest)
      = ((vs, fs), (serializeShadersSpirv vs fs).length) := by
  have h4v : 4 * vs.length / 4 = vs.length := by omega
  have h4f : 4 * fs.length / 4 = fs.length := by omega
  simp only [deserializeShadersSpirv, serializeShadersSpirv, List.append_assoc,
    decU32_encode _ hvl, h4v, readWords_encode vs hv, decU32_encode _ hfl, h4f,
    readWords_encode fs hf]
  rw [Prod.mk.injEq]
  refine ⟨rfl, ?_⟩
  simp only [List.length_append, wordsToBytes_length, bytesOfU32_length]
  omega

/-- C7: for a linked program with a live pipeline cache, GetBinaryData
produces exactly the concatenation of the serialized reflection blob, the
uint32-length-prefixed vertex SPIR-V block, the uint32-length-prefixed
fragment SPIR-V block, and the pipeline-cache blob; and UsePrecompiledBinary
of that binary on a fresh program restores the same reflection and both
stages' SPIR-V word sequences, sets linked, and invokes no compiler
compile/link call. -/
theorem programBinary_round_trip (r : ReflectionData) (vs fs cache : List Nat)
    (ha : ∀ w ∈ r.liveAttributes, w < 4294967296)
    (hu : ∀ w ∈ r.liveUniforms, w < 4294967296)
    (hlen : 12 + 4 * r.liveAttributes.length + 4 * r.liveUniforms.length
              < 4294967296)
    (hv : ∀ w ∈ vs, w < 4294967296) (hf : ∀ w ∈ fs, w < 4294967296)
    (hvl : 4 * vs.length < 4294967296) (hfl : 4 * fs.length < 4294967296) :
    ((getBinaryData (linkedProgramState r vs fs cache)).1
        = serializeReflection r
            ++ ((bytesOfU32 (4 * vs.length) ++ wordsToBytes vs)
            ++ ((bytesOfU32 (4 * fs.length) ++ wordsToBytes fs) ++ cache)))
    ∧ (getBinaryData (linkedProgramState r vs fs cache)).2
        = (getBinaryData (linkedProgramState r vs fs cache)).1.length
    ∧ (usePrecompiledBinary freshProgram
          (getBinaryData (linkedProgramState r vs fs cache)).1).reflection = r
    ∧ (usePrecompiledBinary freshProgram
          (getBinaryData (linkedProgramState r vs fs cache)).1).vsSpv = vs
    ∧ (usePrecompiledBinary freshProgram
          (getBinaryData (linkedProgramState r vs fs cache)).1).fsSpv = fs
    ∧ (usePrecompiledBinary freshProgram
          (getBinaryData (linkedProgramState r vs fs cache)).1).linked = true
    ∧ (usePrecompiledBinary freshProgram
          (getBinaryData (linkedProgramState r vs fs cache)).1).compilerLinkInvoked
        = false
    ∧ (usePrecompiledBinary freshProgram
          (getBinaryData (linkedProgramState r vs fs cache)).1).pipelineCacheBlob
        = some cache := by
  have hbin : (getBinaryData (linkedProgramState r vs fs cache)).1
      = serializeReflection r ++ (serializeShadersSpirv vs fs ++ cache) := by
    simp [getBinaryData, linkedProgramState]
  have hrefl := deserializeReflection_round r (serializeShadersSpirv vs fs ++ cache)
    ha hu hlen
  have hdrop1 : (serializeReflection r ++ (serializeShadersSpirv vs fs ++ cache)).drop
      (serializeReflection r).length = serializeShadersSpirv vs fs ++ cache :=
    List.drop_left _ _
  have hspirv := deserializeShadersSpirv_round vs fs cache hv hf hvl hfl
  have hdrop2 : (serializeReflection r ++ (serializeShadersSpirv vs fs ++ cache)).drop
      ((serializeReflection r).length + (serializeShadersSpirv vs fs).length)
        = cache := by
    rw [show serializeReflection r ++ (serializeShadersSpirv vs fs ++ cache)
          = (serializeReflection r ++ serializeShadersSpirv vs fs) ++ cache by
        simp [List.append_assoc]]
    rw [show (serializeReflection r).length + (serializeShadersSpirv vs fs).length
          = (serializeReflection r ++ serializeShadersSpirv vs fs).length by
        simp [List.length_append]]
    exact List.drop_left _ _
  have huse : usePrecompiledBinary freshProgram
      (getBinaryData (linkedProgramState r vs fs cache)).1
      = { linked := true, isPrecompiled := true, compilerLinkInvoked := false
          reflection := r, vsSpv := vs, fsSpv := fs
          pipelineCacheBlob := some cache } := by
    rw [hbin]
    simp only [usePrecompiledBinary, hrefl, hdrop1, hspirv, hdrop2, freshProgram]
    simp
  refine ⟨?_, ?_, ?_, ?_, ?_, ?_, ?_, ?_⟩
  · rw [hbin]
    simp [serializeShadersSpirv, List.append_assoc]
  · simp [getBinaryData, linkedProgramState]
  · rw [huse]
  · rw [huse]
  · rw [huse]
  · rw [huse]
  · rw [huse]
  · rw [huse]

/-- Witness for C7 at a tiny concrete program: one attribute descriptor, one
uniform descriptor, two vertex words, one fragment word, a 3-byte cache
blob. -/
theorem programBinary_round_trip_witness :
    (usePrecompiledBinary freshProgram
        (getBinaryData (linkedProgramState
          { liveAttributes := [11], liveUniforms := [22] }
          [100, 200] [300] [1, 2, 3])).1).reflection
      = { liveAttributes := [11], liveUniforms := [22] }
    ∧ (usePrecompiledBinary freshProgram
        (getBinaryData (linkedProgramState
          { liveAttributes := [11], liveUniforms := [22] }
          [100, 200] [300] [1, 2, 3])).1).vsSpv = [100, 200]
    ∧ (usePrecompiledBinary freshProgram
        (getBinaryData (linkedProgramState
          { liveAttributes := [11], liveUniforms := [22] }
          [100, 200] [300] [1, 2, 3])).1).linked = true := by
  have h := programBinary_round_trip
    { liveAttributes := [11], liveUniforms := [22] } [100, 200] [300] [1, 2, 3]
    (by decide) (by decide) (by decide) (by decide) (by decide) (by decide) (by decide)
  exact ⟨h.2.2.1, h.2.2.2.1, h.2.2.2.2.2.1⟩

end Glove
